import Mathlib

/-
  Verification of the Web-Scrapers repository (avito_scraper.py, jumia_scraper.py).

  Strings are modelled as lists of characters (`Str`).  Python floats are
  modelled as exact rationals (`ℚ`); machine floating point plays no role in
  the claims under study, which are about the control flow and the exact
  multiplicative policy of the code.  Filesystem contents are modelled as
  `Option Str` (None = the file does not exist).  Network responses are inputs
  to the embedded functions.
-/

/-- Python strings, modelled as lists of unicode characters. -/
abbrev Str := List Char

/-- The set of characters Python's `str.strip()` / `str.split()` treat as
whitespace (the unicode whitespace characters). -/
def isPySpace (c : Char) : Bool :=
  (0x09 ≤ c.toNat && c.toNat ≤ 0x0D) || c.toNat = 0x20 ||
  (0x1C ≤ c.toNat && c.toNat ≤ 0x1F) || c.toNat = 0x85 || c.toNat = 0xA0 ||
  c.toNat = 0x1680 || (0x2000 ≤ c.toNat && c.toNat ≤ 0x200A) ||
  c.toNat = 0x2028 || c.toNat = 0x2029 || c.toNat = 0x202F ||
  c.toNat = 0x205F || c.toNat = 0x3000

/-- Python `s.strip()`: drop whitespace from both ends. -/
def pyStrip (s : Str) : Str :=
  ((s.dropWhile isPySpace).reverse.dropWhile isPySpace).reverse

/-- Python `s.startswith(p)`. -/
def listStartsWith (s p : Str) : Bool :=
  match p, s with
  | [], _ => true
  | _ :: _, [] => false
  | a :: p', b :: s' => a = b && listStartsWith s' p'

/-- Python `sub in s` (substring containment). -/
def listContains (s sub : Str) : Bool :=
  if listStartsWith s sub then true
  else
    match s with
    | [] => false
    | _ :: rest => listContains rest sub

/-- Python `s.upper()` (on the characters appearing in this code base this is
per-character uppercasing). -/
def listUpper (s : Str) : Str := s.map Char.toUpper

/-- Helper for `splitLines`: accumulates the current line in reverse. -/
def splitLinesGo (acc : Str) : Str → List Str
  | [] => if acc.isEmpty then [] else [acc.reverse]
  | c :: rest =>
    if c = '\n' then acc.reverse :: splitLinesGo [] rest
    else splitLinesGo (c :: acc) rest

/-- The lines of a file as Python's `for line in f` yields them, with the
terminating newline of each line already removed (the code strips each line
anyway).  An empty file yields no lines; a trailing newline does not produce
an extra empty line. -/
def splitLines (s : Str) : List Str := splitLinesGo [] s

/-- Helper for `pySplitWs`: accumulates the current word in reverse. -/
def pySplitWsGo (acc : Str) : Str → List Str
  | [] => if acc.isEmpty then [] else [acc.reverse]
  | c :: rest =>
    if isPySpace c then
      if acc.isEmpty then pySplitWsGo [] rest
      else acc.reverse :: pySplitWsGo [] rest
    else pySplitWsGo (c :: acc) rest

/-- Python `s.split()` with no argument: split on whitespace runs, no empty
words. -/
def pySplitWs (s : Str) : List Str := pySplitWsGo [] s

/-- Python `' '.join(words)`. -/
def joinSpace : List Str → Str
  | [] => []
  | [w] => w
  | w :: ws => w ++ ' ' :: joinSpace ws

/-! ## SmartRateLimiter (avito_scraper.py lines 54-86) -/

/-- The mutable state of `SmartRateLimiter`: `base_delay` and `max_delay` are
set at construction and never written afterwards; `current_delay`,
`success_count` and `error_count` evolve. -/
structure LimiterState where
  base_delay : ℚ
  max_delay : ℚ
  current_delay : ℚ
  success_count : ℕ
  error_count : ℕ

/-- `SmartRateLimiter.__init__`: `current_delay` starts at `base_delay`, both
counters at 0. -/
def mkLimiter (base maxd : ℚ) : LimiterState :=
  { base_delay := base, max_delay := maxd, current_delay := base,
    success_count := 0, error_count := 0 }

/-- `SmartRateLimiter.record_success`: increment the success streak, clear the
error streak; once the streak reaches 15, multiply the delay by 0.9 (clamped
below at `base_delay`) and reset the streak to 0. -/
def record_success (st : LimiterState) : LimiterState :=
  let s := st.success_count + 1
  if 15 ≤ s then
    { st with success_count := 0, error_count := 0,
              current_delay := max st.base_delay (st.current_delay * (9/10)) }
  else
    { st with success_count := s, error_count := 0 }

/-- `SmartRateLimiter.record_error(status_code)`: increment the error streak,
clear the success streak; on status 429 double the delay (clamped above at
`max_delay`); otherwise once the error streak reaches 5 multiply the delay by
1.2 (clamped above at `max_delay`). -/
def record_error (st : LimiterState) (status : Option ℤ) : LimiterState :=
  let e := st.error_count + 1
  if status = some 429 then
    { st with error_count := e, success_count := 0,
              current_delay := min st.max_delay (st.current_delay * 2) }
  else if 5 ≤ e then
    { st with error_count := e, success_count := 0,
              current_delay := min st.max_delay (st.current_delay * (12/10)) }
  else
    { st with error_count := e, success_count := 0 }

/-- One recorded fetch outcome, as fed to the limiter by `make_request`. -/
inductive LimiterEvent where
  | success : LimiterEvent
  | error : Option ℤ → LimiterEvent

/-- Dispatch one event to the limiter. -/
def limiterStep (st : LimiterState) : LimiterEvent → LimiterState
  | .success => record_success st
  | .error s => record_error st s

/-- Run the limiter over a finite sequence of recorded outcomes. -/
def runLimiter (st : LimiterState) (evs : List LimiterEvent) : LimiterState :=
  evs.foldl limiterStep st

/-! ### Claim C1 -/

/-- Helper invariant for C1: the configuration fields never change and the
delay stays within the configured band. -/
def DelayInv (base maxd : ℚ) (st : LimiterState) : Prop :=
  st.base_delay = base ∧ st.max_delay = maxd ∧
  base ≤ st.current_delay ∧ st.current_delay ≤ maxd

theorem limiterStep_inv {base maxd : ℚ} (hb : 0 ≤ base) (hbm : base ≤ maxd)
    {st : LimiterState} (h : DelayInv base maxd st) (ev : LimiterEvent) :
    DelayInv base maxd (limiterStep st ev) := by
  obtain ⟨h1, h2, h3, h4⟩ := h
  have hc0 : 0 ≤ st.current_delay := le_trans hb h3
  cases ev with
  | success =>
    simp only [limiterStep, record_success]
    split
    · refine ⟨h1, h2, ?_, ?_⟩
      · simp [h1]
      · simp only [h1, h2]
        refine max_le hbm (le_trans ?_ h4)
        nlinarith
    · exact ⟨h1, h2, h3, h4⟩
  | error s =>
    simp only [limiterStep, record_error]
    split
    · refine ⟨h1, h2, ?_, ?_⟩
      · simp only [h1, h2, le_min_iff]
        exact ⟨hbm, by nlinarith⟩
      · simp [h2]
    · split
      · refine ⟨h1, h2, ?_, ?_⟩
        · simp only [h1, h2, le_min_iff]
          exact ⟨hbm, by nlinarith⟩
        · simp [h2]
      · exact ⟨h1, h2, h3, h4⟩

theorem runLimiter_inv {base maxd : ℚ} (hb : 0 ≤ base) (hbm : base ≤ maxd)
    (evs : List LimiterEvent) {st : LimiterState} (h : DelayInv base maxd st) :
    DelayInv base maxd (runLimiter st evs) := by
  induction evs generalizing st with
  | nil => exact h
  | cons ev evs ih => exact ih (limiterStep_inv hb hbm h ev)

/-- Claim C1 (amended): starting from the initial state, for every finite
sequence of `record_success` / `record_error` events the current delay stays
within the closed band [`base_delay`, `max_delay`], provided
`0 ≤ base_delay ≤ max_delay`.  (The nonnegativity of the floor is needed; see
the counterexample below.) -/
theorem throttle_delay_bounds (base maxd : ℚ) (hb : 0 ≤ base)
    (hbm : base ≤ maxd) (evs : List LimiterEvent) :
    base ≤ (runLimiter (mkLimiter base maxd) evs).current_delay ∧
    (runLimiter (mkLimiter base maxd) evs).current_delay ≤ maxd := by
  have h0 : DelayInv base maxd (mkLimiter base maxd) :=
    ⟨rfl, rfl, le_refl _, hbm⟩
  have h := runLimiter_inv hb hbm evs h0
  exact ⟨h.2.2.1, h.2.2.2⟩

/-- Witness for C1: the bound instantiated at the scraper's actual
configuration (base delay 0.8, max delay 6.0) and a concrete event list. -/
theorem throttle_delay_bounds_witness :
    (4/5 : ℚ) ≤ (runLimiter (mkLimiter (4/5) 6)
        [.error (some 429), .success, .error none]).current_delay ∧
    (runLimiter (mkLimiter (4/5) 6)
        [.error (some 429), .success, .error none]).current_delay ≤ 6 :=
  throttle_delay_bounds (4/5) 6 (by norm_num) (by norm_num)
    [.error (some 429), .success, .error none]

/-- Claim C1 (counterexample): with floor ≤ ceiling alone (no nonnegativity),
the invariant fails: with floor −1 and ceiling 1, a single rate-limited error
doubles the delay to −2, which escapes the band below the floor. -/
theorem throttle_delay_bounds_cex :
    (mkLimiter (-1) 1).base_delay ≤ (mkLimiter (-1) 1).max_delay ∧
    ¬ ((mkLimiter (-1) 1).base_delay ≤
        (runLimiter (mkLimiter (-1) 1) [.error (some 429)]).current_delay) := by
  constructor
  · norm_num [mkLimiter]
  · simp only [runLimiter, List.foldl, limiterStep, record_error, mkLimiter]
    norm_num

/-! ### Claim C3 -/

/-- Claim C3 (amended): from any throttle state whose success streak is 0,
after exactly 15 consecutive `record_success` calls with no intervening error
the delay equals `max base_delay (0.9 × previous delay)` and the success
streak is back at 0 (the error streak is also 0).  The restriction to a zero
starting streak is forced: see the counterexample. -/
theorem throttle_success_decay (st : LimiterState)
    (hs : st.success_count = 0) :
    runLimiter st (List.replicate 15 .success) =
      { st with current_delay := max st.base_delay (st.current_delay * (9/10)),
                success_count := 0, error_count := 0 } := by
  obtain ⟨b, m, d, sc, ec⟩ := st
  simp only at hs
  subst hs
  simp [runLimiter, List.replicate, limiterStep, record_success]

/-- Witness for C3: the decay applied to the initial scraper configuration. -/
theorem throttle_success_decay_witness :
    runLimiter (mkLimiter (4/5) 6) (List.replicate 15 .success) =
      { mkLimiter (4/5) 6 with
          current_delay := max ((4/5 : ℚ)) ((4/5 : ℚ) * (9/10)),
          success_count := 0, error_count := 0 } :=
  throttle_success_decay (mkLimiter (4/5) 6) rfl

/-- Claim C3 (counterexample): from a reachable state whose success streak is
already 1 (initial state followed by one success), 15 further consecutive
successes leave the success streak at 1, not 0 — the decay fires after 14 of
them and the last success restarts the streak. -/
theorem throttle_success_decay_cex :
    (runLimiter (record_success (mkLimiter (4/5) 6))
        (List.replicate 15 .success)).success_count = 1 := by
  decide

/-! ### Claim C4 -/

/-- Claim C4 (confirmed): from every throttle state — whatever the current
success or error streaks — a single `record_error` with status 429 sets the
delay to `min max_delay (2 × previous delay)`; the generic ×1.2 growth branch
is not applied on that call. -/
theorem throttle_rate_limited_doubles (st : LimiterState) :
    record_error st (some 429) =
      { st with error_count := st.error_count + 1, success_count := 0,
                current_delay := min st.max_delay (st.current_delay * 2) } := by
  simp [record_error]

/-! ## make_request (avito_scraper.py lines 129-156) -/

/-- What one network attempt produces: an HTTP response with a status code, or
a raised `requests` exception. -/
inductive FetchOutcome where
  | status : ℤ → FetchOutcome
  | exn : FetchOutcome

/-- The attempt loop of `make_request`, with the network modelled as a map
from the attempt index to its outcome.  Returns the index of the attempt
whose response was returned (or `none` after exhausting the budget), paired
with the final limiter state.  Status 200 records a success and returns at
once; status 429 records a rate-limited error and retries after the
escalating cooldown; any other status and any exception record a generic
error and retry. -/
def makeRequestGo (net : ℕ → FetchOutcome) :
    ℕ → ℕ → LimiterState → Option ℕ × LimiterState
  | 0, _, st => (none, st)
  | fuel + 1, attempt, st =>
    match net attempt with
    | .status c =>
      if c = 200 then (some attempt, record_success st)
      else if c = 429 then
        makeRequestGo net fuel (attempt + 1) (record_error st (some 429))
      else
        makeRequestGo net fuel (attempt + 1) (record_error st (some c))
    | .exn => makeRequestGo net fuel (attempt + 1) (record_error st none)

/-- `make_request(url, retries)`: run the attempt loop from attempt 0. -/
def makeRequest (net : ℕ → FetchOutcome) (st : LimiterState)
    (retries : ℕ) : Option ℕ × LimiterState :=
  makeRequestGo net retries 0 st

/-! ### Claim C2 -/

/-- Claim C2 (amended): only the exact status 200 takes the success branch of
`make_request`: a first-attempt response with status 200 records a success and
is returned immediately with no further attempt, while a first-attempt
response with any other status that is not 429 (in particular any other 2xx
status such as 201 or 204) records a generic error on the throttle and the
loop retries. -/
theorem make_request_only_200_succeeds (net : ℕ → FetchOutcome)
    (st : LimiterState) (r : ℕ) (c : ℤ) (h0 : net 0 = .status c) :
    (c = 200 → makeRequest net st (r + 1) = (some 0, record_success st)) ∧
    (c ≠ 200 → c ≠ 429 →
      makeRequest net st (r + 1) =
        makeRequestGo net r 1 (record_error st (some c))) := by
  constructor
  · intro hc
    subst hc
    simp [makeRequest, makeRequestGo, h0]
  · intro hc hc429
    simp [makeRequest, makeRequestGo, h0, hc, hc429]

/-- Witness for C2 (amended): concrete networks delivering a 200 and a 204 on
the first attempt. -/
theorem make_request_only_200_succeeds_witness :
    (makeRequest (fun _ => .status 200) (mkLimiter (4/5) 6) 3 =
      (some 0, record_success (mkLimiter (4/5) 6))) ∧
    (makeRequest (fun _ => .status 204) (mkLimiter (4/5) 6) 3 =
      makeRequestGo (fun _ => .status 204) 2 1
        (record_error (mkLimiter (4/5) 6) (some 204))) :=
  ⟨(make_request_only_200_succeeds (fun _ => .status 200)
      (mkLimiter (4/5) 6) 2 200 rfl).1 rfl,
   (make_request_only_200_succeeds (fun _ => .status 204)
      (mkLimiter (4/5) 6) 2 204 rfl).2 (by decide) (by decide)⟩

/-- Claim C2 (counterexample): a network that always answers with the 2xx
status 201.  `make_request` never returns the response (result `none` after
the full 3-attempt budget) and the throttle has recorded three errors and no
success — refuting that every 2xx response is returned immediately with a
success recorded. -/
theorem make_request_2xx_cex :
    ((200 : ℤ) ≤ 201 ∧ (201 : ℤ) < 300) ∧
    (makeRequest (fun _ => .status 201) (mkLimiter (4/5) 6) 3).1 = none ∧
    (makeRequest (fun _ => .status 201) (mkLimiter (4/5) 6) 3).2.error_count = 3 ∧
    (makeRequest (fun _ => .status 201) (mkLimiter (4/5) 6) 3).2.success_count = 0 := by
  refine ⟨by norm_num, ?_, ?_, ?_⟩ <;> decide

/-! ## RotatingSessionManager (avito_scraper.py lines 15-51) -/

/-- The four user-agent strings of the pool (avito_scraper.py lines 23-28). -/
def userAgents : List Str := List.map String.data
  ["Mozilla/5.0 (Windows NT 10.0; Win64; x64) AppleWebKit/537.36 (KHTML, like Gecko) Chrome/120.0.0.0 Safari/537.36",
   "Mozilla/5.0 (Macintosh; Intel Mac OS X 10_15_7) AppleWebKit/537.36 (KHTML, like Gecko) Chrome/120.0.0.0 Safari/537.36",
   "Mozilla/5.0 (Windows NT 10.0; Win64; x64; rv:120.0) Gecko/20100101 Firefox/120.0",
   "Mozilla/5.0 (Macintosh; Intel Mac OS X 10_15_7) AppleWebKit/605.1.15 (KHTML, like Gecko) Version/17.0 Safari/605.1.15"]

/-- The user-agent assigned to session `i` at construction:
`user_agents[i % len(user_agents)]`. -/
def sessionUserAgent (i : ℕ) : Str :=
  userAgents.getD (i % userAgents.length) []

/-- The user-agents of the sessions built by
`RotatingSessionManager.__init__(num_sessions)`. -/
def mkSessions (numSessions : ℕ) : List Str :=
  (List.range numSessions).map sessionUserAgent

/-- The session pool: the session list (identified by user-agent) and the
rotation cursor. -/
structure SessionPool where
  sessions : List Str
  current : ℕ

/-- `RotatingSessionManager(num_sessions)` as built by the orchestrator. -/
def mkSessionPool (n : ℕ) : SessionPool :=
  { sessions := mkSessions n, current := 0 }

/-- `get_session`: return the session at the cursor, then advance the cursor
modulo the pool size. -/
def getSession (p : SessionPool) : Str × SessionPool :=
  (p.sessions.getD p.current [],
   { p with current := (p.current + 1) % p.sessions.length })

/-- The session returned by the `k`-th `get_session` call (0-based) on a
pool. -/
def nthSession (p : SessionPool) : ℕ → Str
  | 0 => (getSession p).1
  | k + 1 => nthSession (getSession p).2 k

/-! ### Claim C10 -/

theorem getSession_iter (n : ℕ) (hn : 0 < n) (k c : ℕ) (hc : c < n) :
    nthSession { sessions := mkSessions n, current := c } k =
      (mkSessions n).getD ((c + k) % n) [] := by
  induction k generalizing c with
  | zero =>
    simp [nthSession, getSession, Nat.mod_eq_of_lt hc]
  | succ k ih =>
    have hlen : (mkSessions n).length = n := by
      simp [mkSessions]
    have h1 : (c + 1) % n < n := Nat.mod_lt _ hn
    simp only [nthSession, getSession, hlen]
    rw [ih ((c + 1) % n) h1]
    congr 1
    have h2 : (c + 1) % n % n = (c + 1) % n := Nat.mod_mod_of_dvd _ (dvd_refl n)
    conv_lhs => rw [Nat.add_mod]
    conv_rhs => rw [show c + (k + 1) = c + 1 + k by ring, Nat.add_mod]
    rw [h2]

/-- Claim C10 (confirmed): the pool holds exactly 4 pairwise-distinct
user-agent strings, assigned cyclically at construction — session `i` carries
`userAgents[i % 4]` — so the default 7-session pool built by the orchestrator
has at least two sessions sharing a user-agent (sessions 0 and 4), while
`get_session` assignment remains strict round-robin modulo the full pool
size 7. -/
theorem session_pool_wraparound :
    userAgents.length = 4 ∧ userAgents.Nodup ∧
    (∀ i, i < 7 → (mkSessions 7).getD i [] = userAgents.getD (i % 4) []) ∧
    ((mkSessions 7).getD 0 [] = (mkSessions 7).getD 4 []) ∧
    (∀ k, nthSession (mkSessionPool 7) k = (mkSessions 7).getD (k % 7) []) := by
  refine ⟨by decide, by decide, ?_, by decide, ?_⟩
  · decide
  · intro k
    have := getSession_iter 7 (by norm_num) k 0 (by norm_num)
    simpa [mkSessionPool] using this

/-- Witness for C10: session 5 shares the user-agent of pool slot 1, and the
9th `get_session` call on the 7-session pool yields session 2. -/
theorem session_pool_wraparound_witness :
    (mkSessions 7).getD 5 [] = userAgents.getD (5 % 4) [] ∧
    nthSession (mkSessionPool 7) 9 = (mkSessions 7).getD (9 % 7) [] :=
  ⟨session_pool_wraparound.2.2.1 5 (by decide),
   session_pool_wraparound.2.2.2.2 9⟩

/-! ## Progress ledger (avito_scraper.py lines 114-127) -/

/-- The appending write of `save_progress`: `f.write(url + '\n')` on the
progress file opened in append mode. -/
def save_progress_line (content : Str) (url : Str) : Str :=
  content ++ url ++ ('\n' :: [])

/-- The progress-file content after recording each URL of the run in order,
starting from an empty file; `save_progress` appends each not-yet-present URL
exactly once. -/
def persistRun (urls : List Str) : Str :=
  urls.foldl save_progress_line []

/-- `load_progress`: `set(line.strip() for line in f)` — the stripped lines of
the persisted file (as a list; the in-memory set is its membership). -/
def loadProgress (content : Str) : List Str :=
  (splitLines content).map pyStrip

/-! ### Claim C5 -/

theorem splitLinesGo_append (u : Str) (rest : Str) (acc : Str)
    (h : '\n' ∉ u) :
    splitLinesGo acc (u ++ '\n' :: rest) =
      (acc.reverse ++ u) :: splitLinesGo [] rest := by
  induction u generalizing acc with
  | nil => simp [splitLinesGo]
  | cons c u ih =>
    have hc : ¬ (c = '\n') := fun h' => h (h' ▸ List.mem_cons_self c u)
    have hu : '\n' ∉ u := fun hm => h (List.mem_cons_of_mem _ hm)
    simp only [List.cons_append, splitLinesGo, if_neg hc, List.append_eq]
    rw [ih (c :: acc) hu]
    simp

theorem persistRun_foldl (urls : List Str) (acc : Str) :
    urls.foldl save_progress_line acc =
      acc ++ (urls.map (fun u => u ++ ('\n' :: []))).flatten := by
  induction urls generalizing acc with
  | nil => simp
  | cons u urls ih =>
    simp only [List.foldl_cons, List.map_cons, List.flatten_cons]
    rw [ih]
    simp [save_progress_line]

theorem splitLines_persistRun (urls : List Str) (h : ∀ u ∈ urls, '\n' ∉ u) :
    splitLines (persistRun urls) = urls := by
  rw [persistRun, persistRun_foldl, List.nil_append]
  induction urls with
  | nil => rfl
  | cons u urls ih =>
    have hu : '\n' ∉ u := h u (List.mem_cons_self u urls)
    have hrest : ∀ v ∈ urls, '\n' ∉ v := fun v hv => h v (List.mem_cons_of_mem _ hv)
    simp only [List.map_cons, List.flatten_cons, splitLines]
    rw [List.append_assoc]
    simp only [List.singleton_append]
    rw [splitLinesGo_append u _ [] hu]
    simp only [List.reverse_nil, List.nil_append]
    exact congrArg (u :: ·) (ih hrest)

/-- Claim C5 (confirmed): for every run whose recorded URLs contain no newline
character and are each fixed by whitespace stripping, reloading the persisted
progress file reconstructs exactly the recorded set:
`reload(persist(S)) == S` as sets (membership is preserved both ways). -/
theorem ledger_roundtrip (urls : List Str)
    (h : ∀ u ∈ urls, '\n' ∉ u ∧ pyStrip u = u) :
    ∀ x : Str, x ∈ loadProgress (persistRun urls) ↔ x ∈ urls := by
  intro x
  rw [loadProgress, splitLines_persistRun urls (fun u hu => (h u hu).1)]
  rw [List.map_congr_left (fun u hu => (h u hu).2)]
  simp

/-- Witness for C5: a concrete two-URL run round-trips. -/
theorem ledger_roundtrip_witness :
    (∀ u ∈ [('a' :: 'b' :: []), ('c' :: [])], '\n' ∉ u ∧ pyStrip u = u) ∧
    (('a' :: 'b' :: []) ∈
        loadProgress (persistRun [('a' :: 'b' :: []), ('c' :: [])]) ↔
      ('a' :: 'b' :: []) ∈ [('a' :: 'b' :: []), ('c' :: [])]) :=
  ⟨by decide,
   ledger_roundtrip [('a' :: 'b' :: []), ('c' :: [])] (by decide)
     ('a' :: 'b' :: [])⟩

/-! ## Link discovery (avito_scraper.py lines 158-225, 442-461) -/

/-- Substring filter and URL normalization constants of
`collect_links_optimized`. -/
def ordinateursSub : Str := "/ordinateurs".data

/-- The `desktop` href filter substring. -/
def desktopSub : Str := "desktop".data

/-- The `bureau` href filter substring. -/
def bureauSub : Str := "bureau".data

/-- The avito host prefixed to relative hrefs. -/
def avitoHost : Str := "https://www.avito.ma".data

/-- Lines 198-204: from the matched items' hrefs, keep the hrefs that exist,
pass the category filter, normalize relative links to absolute, and drop URLs
already in the processed set. -/
def buildLinks (processed : List Str) (itemHrefs : List (Option Str)) :
    List Str :=
  itemHrefs.filterMap (fun h? =>
    match h? with
    | none => none
    | some h =>
      if !h.isEmpty &&
          (listContains h ordinateursSub || listContains h desktopSub ||
           listContains h bureauSub) then
        let full := if listStartsWith h ('/' :: []) then avitoHost ++ h else h
        if full ∈ processed then none else some full
      else none)

/-- The page loop of `collect_links_optimized`.  The environment is a map
`fetch` from the page number to `make_request`'s outcome for that page:
`none` when the request ultimately failed, `some itemHrefs` for the hrefs of
the items matched by the first non-empty selector of the cascade (the empty
list when every selector matched nothing).  `fuel` bounds the number of loop
iterations (the Python loop is `while True` terminated only by its `break`s).
A failed fetch stops; an empty item set stops; on a page after the first,
fewer than 5 new links stops without adding that page's links; otherwise the
page's links are appended and the next page is loaded. -/
def collectGo (fetch : ℕ → Option (List (Option Str))) (processed : List Str) :
    ℕ → ℕ → List Str → List Str
  | 0, _, acc => acc
  | fuel + 1, page, acc =>
    match fetch page with
    | none => acc
    | some items =>
      if items.isEmpty then acc
      else
        let links := buildLinks processed items
        if links.length < 5 ∧ 1 < page then acc
        else collectGo fetch processed fuel (page + 1) (acc ++ links)

/-- `collect_links_optimized`: run the page loop from page 1 with no links
collected. -/
def collectLinksOptimized (fetch : ℕ → Option (List (Option Str)))
    (processed : List Str) (fuel : ℕ) : List Str :=
  collectGo fetch processed fuel 1 []

/-- The caller's treatment of discovery (scrape_optimized, lines 453-457 and
459-461): an empty collected-link list aborts the run (`none`); otherwise the
links are processed. -/
def scrapeOutcome (fetch : ℕ → Option (List (Option Str)))
    (processed : List Str) (fuel : ℕ) : Option (List Str) :=
  let links := collectLinksOptimized fetch processed fuel
  if links.isEmpty then none else some links

/-! ### Claim C6 -/

/-- Claim C6 (confirmed): (a) whenever a page with number greater than 1
yields fewer than 5 new (not already processed) links, link collection
returns the links accumulated so far — the page's own links are not added and,
the result being independent of `fetch` beyond that page, no later page is
requested; (b) a page-1 response whose selector cascade yields no items ends
discovery with the empty list, which the caller treats as fatal (`none`). -/
theorem frontier_tail_termination :
    (∀ (fetch : ℕ → Option (List (Option Str))) (processed : List Str)
        (fuel page : ℕ) (acc : List Str) (items : List (Option Str)),
      1 < page → fetch page = some items →
      (buildLinks processed items).length < 5 →
      collectGo fetch processed (fuel + 1) page acc = acc) ∧
    (∀ (fetch : ℕ → Option (List (Option Str))) (processed : List Str)
        (fuel : ℕ),
      fetch 1 = some [] →
      collectLinksOptimized fetch processed (fuel + 1) = [] ∧
      scrapeOutcome fetch processed (fuel + 1) = none) := by
  constructor
  · intro fetch processed fuel page acc items hpage hfetch hfew
    simp only [collectGo, hfetch]
    by_cases hempty : items.isEmpty
    · simp [hempty]
    · simp [hempty, hfew, hpage]
  · intro fetch processed fuel hfetch
    have h1 : collectLinksOptimized fetch processed (fuel + 1) = [] := by
      simp [collectLinksOptimized, collectGo, hfetch]
    refine ⟨h1, ?_⟩
    simp [scrapeOutcome, h1]

/-- Concrete page-2 environment for the C6 witness: one matched item whose
href passes the filter, hence a single new link (< 5). -/
def fewLinksFetch : ℕ → Option (List (Option Str)) :=
  fun _ => some [some ("/ordinateurs_bureau/item1".data)]

/-- Concrete page-1 environment for the C6 witness: the selector cascade
matches nothing. -/
def noItemsFetch : ℕ → Option (List (Option Str)) :=
  fun _ => some []

/-- Witness for C6: both termination branches at concrete inputs. -/
theorem frontier_tail_termination_witness :
    collectGo fewLinksFetch [] (3 + 1) 2 [] = [] ∧
    (collectLinksOptimized noItemsFetch [] (3 + 1) = [] ∧
     scrapeOutcome noItemsFetch [] (3 + 1) = none) :=
  ⟨frontier_tail_termination.1 fewLinksFetch [] 3 2 []
      [some ("/ordinateurs_bureau/item1".data)] (by decide) rfl (by decide),
   frontier_tail_termination.2 noItemsFetch [] 3 rfl⟩

/-! ## Description extraction (avito_scraper.py lines 227-329) -/

/-- Phase-1 emoji markers (line 249). -/
def emojiMarkers1 : List Str := List.map String.data
  ["🔴", "📍", "⚡", "🔋", "✅", "🇲🇦", "📦", "🚚"]

/-- Phase-1 technical-specification keywords (line 251). -/
def techSpecs1 : List Str := List.map String.data
  ["PROCESSEUR", "RAM", "SSD", "ECRAN", "PRIX", "LIVRAISON", "INTEL", "AMD",
   "NVIDIA"]

/-- Phase-2 emoji indicators (line 273). -/
def emojiMarkers2 : List Str := List.map String.data
  ["🔴", "📍", "⚡", "🔋", "✅", "🇲🇦", "📦", "🚚", "☎️"]

/-- Phase-2 technical specifications (lines 277-278). -/
def techSpecs2 : List Str := List.map String.data
  ["PROCESSEUR", "RAM", "SSD", "HDD", "ECRAN", "CARTE GRAPHIQUE", "BATTERIE",
   "INTEL", "AMD", "NVIDIA"]

/-- Phase-2 common computer terms (line 282). -/
def computerTerms : List Str := List.map String.data
  ["RYZEN", "CORE", "DDR4", "DDR5", "NVME", "FULL HD", "4K", "IPS", "WINDOWS",
   "OFFICE"]

/-- Phase-2 navigation keywords, penalized (line 294). -/
def navKeywords : List Str := List.map String.data
  ["ACCUEIL", "SE CONNECTER", "PUBLIER", "TOUT LE MAROC", "AVITO MARKET"]

/-- The price keyword of the phase-2 score. -/
def prixKw : Str := "PRIX".data

/-- The currency keyword of the phase-2 score. -/
def dhKw : Str := "DH".data

/-- The delivery keyword of the phase-2 score. -/
def livraisonKw : Str := "LIVRAISON".data

/-- The contact keyword of the phase-2 score. -/
def contactezKw : Str := "CONTACTEZ".data

/-- The phase-1 acceptance test (lines 248-251): the element's text is longer
than 50 characters and contains an emoji marker, or an upper-cased
technical-specification keyword. -/
def acceptPhase1 (t : Str) : Bool :=
  decide (50 < t.length) &&
  (emojiMarkers1.any (fun e => listContains t e) ||
   techSpecs1.any (fun k => listContains (listUpper t) k))

/-- Strategy 1 (lines 231-255): walk the selector results in order, and
within each selector its elements in order; the first element passing
`acceptPhase1` wins. -/
def phase1 : List (List Str) → Option Str
  | [] => none
  | elems :: rest =>
    match elems.find? acceptPhase1 with
    | some d => some d
    | none => phase1 rest

/-- The phase-2 score of a block of text (lines 270-295). -/
def score2 (t : Str) : ℤ :=
  let tu := listUpper t
  2 * ((emojiMarkers2.filter (fun e => listContains t e)).length : ℤ) +
  3 * ((techSpecs2.filter (fun k => listContains tu (listUpper k))).length : ℤ) +
  ((computerTerms.filter (fun k => listContains tu (listUpper k))).length : ℤ) +
  (if listContains tu prixKw || listContains tu dhKw then 2 else 0) +
  (if listContains tu livraisonKw || listContains tu contactezKw then 1 else 0) -
  5 * ((navKeywords.filter (fun k => listContains tu (listUpper k))).length : ℤ)

/-- Strategy 2 loop (lines 259-299): skip blocks outside the [50, 2000]
length band; keep the first maximal-scoring candidate whose score strictly
improves the running best and is at least 3. -/
def phase2Go : List Str → Option Str → ℤ → Option Str
  | [], best, _ => best
  | t :: rest, best, bestScore =>
    if t.length < 50 ∨ 2000 < t.length then phase2Go rest best bestScore
    else
      let s := score2 t
      if bestScore < s ∧ 3 ≤ s then phase2Go rest (some t) s
      else phase2Go rest best bestScore

/-- Strategy 2 (scored free-text search), starting from no candidate and best
score 0. -/
def phase2 (divs : List Str) : Option Str := phase2Go divs none 0

/-- The description choice of `extract_description_improved` (lines 229-302):
strategy 2 runs only when strategy 1 produced nothing. -/
def chooseDescription (selRes : List (List Str)) (divs : List Str) :
    Option Str :=
  match phase1 selRes with
  | some d => some d
  | none => phase2 divs

/-- The "not available" sentinel of the extractor ("N/A"). -/
def naStr : Str := "N/A".data

/-- `extract_description_improved` (lines 227-329).  The post-processing of
the chosen candidate — whitespace collapsing, the boilerplate-stripping
regexes and the 800-character sentence truncation of lines 304-328 — is not a
subject of any claim and is kept abstract as the `cleanup` parameter; the
final `description or "N/A"` of line 329 (which also catches a candidate that
cleans up to the empty string) is modelled. -/
def extractDescriptionImproved (cleanup : Str → Str)
    (selRes : List (List Str)) (divs : List Str) : Str :=
  match chooseDescription selRes divs with
  | none => naStr
  | some d => let c := cleanup d; if c.isEmpty then naStr else c

/-! ## extract_info (avito_scraper.py lines 331-409) -/

/-- The distinct default of the condition field ("Not specified", line 384). -/
def notSpecified : Str := "Not specified".data

/-- The page content relevant to `extract_info`, as found by the selectors:
the `h1` text, the `select_one` result of each of the four price selectors in
order, the `datetime` attribute of the time element when present, the
condition badge text, and the description inputs (the elements of each of the
nine description selectors, and all block-level texts). -/
structure PageData where
  h1Text : Option Str
  priceTags : List (Option Str)
  postDateAttr : Option Str
  conditionText : Option Str
  descSelRes : List (List Str)
  divTexts : List Str

/-- One extracted record (the dict of lines 397-405 / 65-73). -/
structure ProductRecord where
  title : Str
  price : Str
  condition : Str
  description : Str
  postDate : Str
  url : Str
  scrapedAt : Str

/-- Python `.replace(" ", " ")` applied to the price text. -/
def replaceNarrowNbsp (s : Str) : Str :=
  s.map (fun c => if c = ' ' then ' ' else c)

/-- The price loop (lines 352-364): the first selector returning an element
wins; its text is stripped and the narrow no-break space normalized; if no
selector returns an element the price stays "N/A". -/
def extractPrice : List (Option Str) → Str
  | [] => naStr
  | none :: rest => extractPrice rest
  | some t :: _ => replaceNarrowNbsp (pyStrip t)

/-- `extract_info(url)` on a fetched page (lines 341-405): every field falls
back to its default when its source is missing — "N/A" for title, price,
description and post date, but "Not specified" for condition. -/
def extract_info (cleanup : Str → Str) (url scrapedAt : Str)
    (pd : PageData) : ProductRecord :=
  { title := match pd.h1Text with | some t => pyStrip t | none => naStr
    price := extractPrice pd.priceTags
    condition :=
      match pd.conditionText with | some t => pyStrip t | none => notSpecified
    description := extractDescriptionImproved cleanup pd.descSelRes pd.divTexts
    postDate := match pd.postDateAttr with | some d => d | none => naStr
    url := url
    scrapedAt := scrapedAt }

/-! ## jumia_scraper.py: scrape_single_product (lines 38-73) and
write_header_if_needed (lines 25-36) -/

/-- The condition constant of the jumia scraper ("New", line 68). -/
def newCondition : Str := "New".data

/-- The page content relevant to `scrape_single_product`: the title element,
the price element and the description div, each optional. -/
structure JumiaPage where
  titleElem : Option Str
  priceElem : Option Str
  descDiv : Option Str

/-- Python `.replace('\n', ' ').replace('\r', ' ')` (lines 66-67). -/
def cleanNewlines (s : Str) : Str :=
  s.map (fun c => if c = '\n' ∨ c = '\r' then ' ' else c)

/-- The truncation suffix of the jumia description. -/
def ellipsisStr : Str := "...".data

/-- The jumia description pipeline (lines 50-60): collapse whitespace via
`' '.join(description.split())`, replace the control characters, truncate to
500 characters with an ellipsis; "N/A" when the div is missing. -/
def jumiaDescription (divText : Option Str) : Str :=
  match divText with
  | none => naStr
  | some d0 =>
    let d1 := joinSpace (pySplitWs d0)
    let d2 := d1.map (fun c => if c = '\n' ∨ c = '\r' ∨ c = '\t' then ' ' else c)
    if 500 < d2.length then d2.take 500 ++ ellipsisStr else d2

/-- The record built by `scrape_single_product` (lines 44-73): title and
price default to "N/A" and are newline-cleaned, the condition is the constant
"New". -/
def jumiaRecord (page : JumiaPage) (link postDate scrapedAt : Str) :
    ProductRecord :=
  { title :=
      cleanNewlines (match page.titleElem with | some t => pyStrip t | none => naStr)
    price :=
      cleanNewlines (match page.priceElem with | some t => pyStrip t | none => naStr)
    condition := newCondition
    description := jumiaDescription page.descDiv
    postDate := postDate
    url := link
    scrapedAt := scrapedAt }

/-- The rendered CSV header row shared by both scrapers. -/
def headerRow : Str := "Title,Price,Condition,Description,Post Date,URL,Scraped at".data

/-- The CSV setup of `OptimizedAvitoScraper.__init__` (lines 107-112): the
header is written exactly when the sink file does not exist (`os.path.exists`
is false); the Boolean records whether the header-writing branch ran, the
second component is the resulting file content. -/
def avitoSetupCsv (header : Str) : Option Str → Bool × Str
  | some c => (false, c)
  | none => (true, header)

/-- `write_header_if_needed` of the jumia scraper (lines 25-36): a readable
first line means the header is assumed present; a missing file
(`FileNotFoundError`) or an empty file (empty `readline()`) gets the header
written. -/
def writeHeaderIfNeeded (header : Str) : Option Str → Bool × Str
  | some c => if c.isEmpty then (true, header) else (false, c)
  | none => (true, header)

/-! ### Claim C7 -/

/-- A qualifying text of exactly 50 characters: it starts with the keyword
"RAM" and is padded to length 50. -/
def fiftyCharText : Str := "RAM".data ++ List.replicate 47 'a'

/-- The same text padded to length 51, which phase 1 does accept. -/
def fiftyOneCharText : Str := "RAM".data ++ List.replicate 48 'a'

/-- Claim C7 (counterexample): an element whose visible text is exactly 50
characters long and contains the technical keyword "RAM" is NOT accepted by
the structured-selector phase — the code requires length strictly greater
than 50 (`len(desc_text) > 50`), so the whole two-phase choice yields nothing
for it. -/
theorem extractor_phase1_len50_cex :
    fiftyCharText.length = 50 ∧
    listContains (listUpper fiftyCharText) ("RAM".data) = true ∧
    phase1 [[fiftyCharText]] = none ∧
    chooseDescription [[fiftyCharText]] [] = none := by
  refine ⟨by decide, by decide, by decide, by decide⟩

/-- Claim C7 (amended): the structured-selector phase accepts the first
candidate whose visible text has length strictly greater than 50 and contains
an emoji marker or an upper-cased technical keyword; a text of length at most
50 is never accepted by phase 1; and whenever phase 1 accepts an element the
scored free-text phase is never run (the choice is independent of the
block-level texts). -/
theorem extractor_phase1_amended :
    (∀ (t : Str) (elems : List Str) (selRest : List (List Str)),
      acceptPhase1 t = true → phase1 ((t :: elems) :: selRest) = some t) ∧
    (∀ t : Str, t.length ≤ 50 → acceptPhase1 t = false) ∧
    (∀ t : Str, 50 < t.length →
      (emojiMarkers1.any (fun e => listContains t e) ||
       techSpecs1.any (fun k => listContains (listUpper t) k)) = true →
      acceptPhase1 t = true) ∧
    (∀ (selRes : List (List Str)) (divs : List Str) (d : Str),
      phase1 selRes = some d → chooseDescription selRes divs = some d) := by
  refine ⟨?_, ?_, ?_, ?_⟩
  · intro t elems selRest h
    simp [phase1, List.find?_cons, h]
  · intro t h
    simp [acceptPhase1, not_lt.mpr h]
  · intro t h1 h2
    simp [acceptPhase1, h1, h2]
  · intro selRes divs d h
    simp [chooseDescription, h]

/-- Witness for C7 (amended): the 51-character text is accepted first and
short-circuits phase 2 even with an eligible block-level text present. -/
theorem extractor_phase1_amended_witness :
    phase1 [[fiftyOneCharText]] = some fiftyOneCharText ∧
    acceptPhase1 fiftyCharText = false ∧
    acceptPhase1 fiftyOneCharText = true ∧
    chooseDescription [[fiftyOneCharText]] [fiftyCharText] =
      some fiftyOneCharText :=
  ⟨extractor_phase1_amended.1 fiftyOneCharText [] [] (by decide),
   extractor_phase1_amended.2.1 fiftyCharText (by decide),
   extractor_phase1_amended.2.2.1 fiftyOneCharText (by decide) (by decide),
   extractor_phase1_amended.2.2.2 [[fiftyOneCharText]] [fiftyCharText]
     fiftyOneCharText (by decide)⟩

/-! ### Claim C8 -/

/-- A fetched avito page on which no selector matched anything: no `h1`, the
four price selectors empty, no time element, no condition badge, the nine
description selectors empty, no block-level texts. -/
def emptyAvitoPage : PageData :=
  { h1Text := none, priceTags := [none, none, none, none],
    postDateAttr := none, conditionText := none,
    descSelRes := [[], [], [], [], [], [], [], [], []], divTexts := [] }

/-- Claim C8 (counterexample): on a page with every source element missing,
the condition field is set to "Not specified" while the title field is set to
"N/A" — the condition field does NOT use the same "not available" sentinel as
the other fields. -/
theorem sentinel_condition_cex :
    (extract_info (fun s => s) [] [] emptyAvitoPage).condition = notSpecified ∧
    (extract_info (fun s => s) [] [] emptyAvitoPage).title = naStr ∧
    notSpecified ≠ naStr := by
  refine ⟨by decide, by decide, by decide⟩

theorem extractPrice_all_none (tags : List (Option Str))
    (h : ∀ t ∈ tags, t = none) : extractPrice tags = naStr := by
  induction tags with
  | nil => rfl
  | cons t rest ih =>
    have ht := h t (List.mem_cons_self t rest)
    subst ht
    exact ih (fun t' h' => h t' (List.mem_cons_of_mem _ h'))

/-- Claim C8 (amended): in the avito extractor, every field whose source is
missing falls back to an explicit default rather than absence — "N/A" for
title, price, description and post date, but the distinct sentinel
"Not specified" for condition; in the jumia scraper title, price and
description default to "N/A" while the condition is the constant "New".  Both
scrapers thus use explicit defaults, but the condition field does not share
the "N/A" sentinel. -/
theorem sentinel_fields_amended :
    (∀ (cleanup : Str → Str) (url ts : Str) (pd : PageData),
      pd.h1Text = none → (∀ t ∈ pd.priceTags, t = none) →
      pd.postDateAttr = none → pd.conditionText = none →
      chooseDescription pd.descSelRes pd.divTexts = none →
      (extract_info cleanup url ts pd).title = naStr ∧
      (extract_info cleanup url ts pd).price = naStr ∧
      (extract_info cleanup url ts pd).description = naStr ∧
      (extract_info cleanup url ts pd).postDate = naStr ∧
      (extract_info cleanup url ts pd).condition = notSpecified) ∧
    (∀ (page : JumiaPage) (link pdate ts : Str),
      page.titleElem = none → page.priceElem = none → page.descDiv = none →
      (jumiaRecord page link pdate ts).title = naStr ∧
      (jumiaRecord page link pdate ts).price = naStr ∧
      (jumiaRecord page link pdate ts).description = naStr ∧
      (jumiaRecord page link pdate ts).condition = newCondition) ∧
    notSpecified ≠ naStr ∧ newCondition ≠ naStr := by
  refine ⟨?_, ?_, by decide, by decide⟩
  · intro cleanup url ts pd h1 hp hpd hc hd
    refine ⟨?_, ?_, ?_, ?_, ?_⟩
    · simp [extract_info, h1]
    · simp [extract_info, extractPrice_all_none pd.priceTags hp]
    · simp [extract_info, extractDescriptionImproved, hd]
    · simp [extract_info, hpd]
    · simp [extract_info, hc]
  · intro page link pdate ts ht hp hd
    refine ⟨?_, ?_, ?_, rfl⟩
    · simp [jumiaRecord, ht]
      decide
    · simp [jumiaRecord, hp]
      decide
    · simp [jumiaRecord, jumiaDescription, hd]

/-- Witness for C8 (amended): the empty avito page and an empty jumia page. -/
theorem sentinel_fields_amended_witness :
    ((extract_info (fun s => s) [] [] emptyAvitoPage).title = naStr ∧
     (extract_info (fun s => s) [] [] emptyAvitoPage).price = naStr ∧
     (extract_info (fun s => s) [] [] emptyAvitoPage).description = naStr ∧
     (extract_info (fun s => s) [] [] emptyAvitoPage).postDate = naStr ∧
     (extract_info (fun s => s) [] [] emptyAvitoPage).condition = notSpecified) ∧
    ((jumiaRecord ⟨none, none, none⟩ [] [] []).title = naStr ∧
     (jumiaRecord ⟨none, none, none⟩ [] [] []).price = naStr ∧
     (jumiaRecord ⟨none, none, none⟩ [] [] []).description = naStr ∧
     (jumiaRecord ⟨none, none, none⟩ [] [] []).condition = newCondition) :=
  ⟨sentinel_fields_amended.1 (fun s => s) [] [] emptyAvitoPage rfl (by decide)
     rfl rfl (by decide),
   sentinel_fields_amended.2.1 ⟨none, none, none⟩ [] [] [] rfl rfl rfl⟩

/-! ### Claim C9 -/

/-- Claim C9 (counterexample): at the start of an avito run with an existing
but empty sink file, no header row is written — `__init__` writes the header
only when `os.path.exists` is false, so an existing empty sink file does NOT
receive a header, contradicting the claim's "or exists but is empty". -/
theorem sink_header_cex :
    (avitoSetupCsv headerRow (some [])).1 = false ∧
    (avitoSetupCsv headerRow (some [])).2 = [] := by
  refine ⟨rfl, rfl⟩

/-- Claim C9 (amended): the jumia sink (`write_header_if_needed`) writes the
header row exactly when the file does not exist or exists empty, as the claim
states; the avito sink writes it exactly when the file does not exist, so an
existing empty avito sink file keeps no header. -/
theorem sink_header_amended :
    (∀ file : Option Str,
      (writeHeaderIfNeeded headerRow file).1 = true ↔
        (file = none ∨ file = some [])) ∧
    (∀ file : Option Str,
      (avitoSetupCsv headerRow file).1 = true ↔ file = none) := by
  constructor
  · intro file
    cases file with
    | none => simp [writeHeaderIfNeeded]
    | some c =>
      cases c with
      | nil => simp [writeHeaderIfNeeded]
      | cons a c => simp [writeHeaderIfNeeded]
  · intro file
    cases file with
    | none => simp [avitoSetupCsv]
    | some c => simp [avitoSetupCsv]
